import Mathlib

/-!
Shallow embedding of the module-argument assembly ("Argument Normalizer")
of the ftl-aws-tools repository.

Each tool's `__call__` builds a Python dict `module_args` by a sequence of
insertions guarded by Python truthiness tests, merges the overflow `**kwargs`
via `dict.update`, and hands the dict to `context.run_module`.  We model the
dict as an insertion-ordered association list with unique keys maintained by
`setArg` (the embedding of `d[k] = v`), Python truthiness of each optional
parameter type explicitly, and each tool's argument build as a Lean function
mirroring the source line by line.
-/

namespace FtlAwsTools

/-- A Python value as it appears in a `module_args` mapping: a string, an
integer, a boolean, a nested string-keyed dict, or a list. -/
inductive Value where
  | str : String → Value
  | int : Int → Value
  | bool : Bool → Value
  | dict : List (String × Value) → Value
  | list : List Value → Value

/-- A Python dict in insertion order, as used for `module_args` and `kwargs`. -/
abbrev ArgMap := List (String × Value)

/-- Embedding of Python `d[k] = v`: replace the value at an existing key in
place (preserving insertion order), else append the new pair at the end. -/
def setArg : ArgMap → String → Value → ArgMap
  | [], k, v => [(k, v)]
  | p :: rest, k, v => if p.1 = k then (k, v) :: rest else p :: setArg rest k v

/-- Embedding of Python `d[k]` / `k in d`: the value at the first occurrence
of the key, if any. -/
def lookupArg : ArgMap → String → Option Value
  | [], _ => none
  | p :: rest, k => if p.1 = k then some p.2 else lookupArg rest k

/-- Embedding of Python `d.update(kw)`: set each key of `kw` in order. -/
def updateArgs (m : ArgMap) (kw : ArgMap) : ArgMap :=
  kw.foldl (fun acc p => setArg acc p.1 p.2) m

/-- A guarded insertion `if c: d[k] = v`. -/
def setIf (c : Bool) (m : ArgMap) (k : String) (v : Value) : ArgMap :=
  if c then setArg m k v else m

/-- Python truthiness of an `Optional[str]` argument: `None` and `""` are
falsy. -/
def strT : Option String → Bool
  | none => false
  | some s => !(s = "")

/-- Python truthiness of an `Optional[int]` argument: `None` and `0` are
falsy. -/
def intT : Option Int → Bool
  | none => false
  | some n => !(n = 0)

/-- Python truthiness of an `Optional[Dict]` argument: `None` and `{}` are
falsy. -/
def dictT : Option (List (String × Value)) → Bool
  | none => false
  | some d => !d.isEmpty

/-- Python truthiness of an `Optional[List]` argument: `None` and `[]` are
falsy. -/
def listT : Option (List Value) → Bool
  | none => false
  | some l => !l.isEmpty

/-- Embedding of `if x: d[k] = x` for an `Optional[str]` parameter. -/
def addStr (m : ArgMap) (k : String) (x : Option String) : ArgMap :=
  setIf (strT x) m k (.str (x.getD ""))

/-- Embedding of `if x: d[k] = x` for an `Optional[int]` parameter. -/
def addInt (m : ArgMap) (k : String) (x : Option Int) : ArgMap :=
  setIf (intT x) m k (.int (x.getD 0))

/-- Embedding of `if x: d[k] = x` for an `Optional[Dict]` parameter. -/
def addDict (m : ArgMap) (k : String) (x : Option (List (String × Value))) : ArgMap :=
  setIf (dictT x) m k (.dict (x.getD []))

/-- Embedding of `if x: d[k] = x` for an `Optional[List]` parameter. -/
def addList (m : ArgMap) (k : String) (x : Option (List Value)) : ArgMap :=
  setIf (listT x) m k (.list (x.getD []))

/-- Embedding of `if x is not None: d[k] = x` for an `Optional[int]`
parameter (explicit `0` is kept). -/
def addIntNotNone (m : ArgMap) (k : String) (x : Option Int) : ArgMap :=
  setIf x.isSome m k (.int (x.getD 0))

/-- Embedding of `if x is not None: d[k] = x` for an `Optional[bool]`
parameter (explicit `False` is kept). -/
def addBoolNotNone (m : ArgMap) (k : String) (x : Option Bool) : ArgMap :=
  setIf x.isSome m k (.bool (x.getD false))

/-- Python `x or y` on two `Optional[str]` values: `x` if truthy, else `y`. -/
def pyOrStr (x y : Option String) : Option String :=
  if strT x then x else y

/-- The `kwargs` overflow mapping binds none of the listed keys. -/
def kwAvoids (kw : ArgMap) (ks : List String) : Prop :=
  ∀ p ∈ kw, p.1 ∉ ks

/-- One invocation of the external Module Runner collaborator:
`context.run_module(module, **module_args)`. -/
structure Invocation where
  module : String
  module_args : ArgMap

/-- The parameters of `LambdaFunction.__call__`
(src/ftl_aws_tools/tools/compute/lambda_function.py), with the Python
defaults.  `kwargs` is the overflow `**kwargs` dict. -/
structure LambdaArgs where
  name : String
  state : String := "present"
  runtime : Option String := none
  role : Option String := none
  handler : Option String := none
  zip_file : Option String := none
  s3_bucket : Option String := none
  s3_key : Option String := none
  s3_object_version : Option String := none
  description : Option String := none
  timeout : Option Int := none
  memory_size : Option Int := none
  environment : Option (List (String × Value)) := none
  dead_letter_config : Option (List (String × Value)) := none
  tracing_config : Option (List (String × Value)) := none
  kms_key_arn : Option String := none
  layers : Option (List Value) := none
  vpc_config : Option (List (String × Value)) := none
  reserved_concurrency : Option Int := none
  provisioned_concurrency_config : Option (List (String × Value)) := none
  tags : Option (List (String × Value)) := none
  purge_tags : Bool := true
  code_sha256 : Option String := none
  image_uri : Option String := none
  package_type : String := "Zip"
  image_config : Option (List (String × Value)) := none
  architectures : Option (List Value) := none
  ephemeral_storage : Option (List (String × Value)) := none
  file_system_configs : Option (List Value) := none
  region : Option String := none
  kwargs : ArgMap := []

/-- The `module_args` dict built by `LambdaFunction.__call__` before the
final `module_args.update(kwargs)`, mirroring the source statement by
statement (initial dict literal, the `package_type == "Zip"` guard for
runtime/handler, the `zip_file` / `s3_bucket and s3_key` / `image_uri` elif
chain, then the guarded optional fields, `tags` and `region`). -/
def lambdaNamedArgs (a : LambdaArgs) : ArgMap :=
  let m : ArgMap :=
    setArg (setArg (setArg (setArg [] "name" (.str a.name))
      "state" (.str a.state)) "purge_tags" (.bool a.purge_tags))
      "package_type" (.str a.package_type)
  let m :=
    if a.package_type = "Zip" then
      addStr (addStr m "runtime" a.runtime) "handler" a.handler
    else m
  let m := addStr m "role" a.role
  let m :=
    if strT a.zip_file then setArg m "zip_file" (.str (a.zip_file.getD ""))
    else if strT a.s3_bucket && strT a.s3_key then
      addStr (setArg (setArg m "s3_bucket" (.str (a.s3_bucket.getD "")))
        "s3_key" (.str (a.s3_key.getD ""))) "s3_object_version" a.s3_object_version
    else if strT a.image_uri then setArg m "image_uri" (.str (a.image_uri.getD ""))
    else m
  let m := addStr m "description" a.description
  let m := addInt m "timeout" a.timeout
  let m := addInt m "memory_size" a.memory_size
  let m := addDict m "environment_variables" a.environment
  let m := addDict m "dead_letter_config" a.dead_letter_config
  let m := addDict m "tracing_config" a.tracing_config
  let m := addStr m "kms_key_arn" a.kms_key_arn
  let m := addList m "layers" a.layers
  let m := addDict m "vpc_config" a.vpc_config
  let m := addIntNotNone m "reserved_concurrency" a.reserved_concurrency
  let m := addDict m "provisioned_concurrency_config" a.provisioned_concurrency_config
  let m := addDict m "image_config" a.image_config
  let m := addList m "architectures" a.architectures
  let m := addDict m "ephemeral_storage" a.ephemeral_storage
  let m := addList m "file_system_configs" a.file_system_configs
  let m := addDict m "tags" a.tags
  let m := addStr m "region" a.region
  m

/-- The full `module_args` of `LambdaFunction.__call__`: the named-field
rules followed by `module_args.update(kwargs)`. -/
def lambdaModuleArgs (a : LambdaArgs) : ArgMap :=
  updateArgs (lambdaNamedArgs a) a.kwargs

/-- `LambdaFunction.__call__` always hands the built `module_args` to
`context.run_module(self.module, **module_args)` — there is no validation
step and no early return in the source. -/
def lambdaCall (a : LambdaArgs) : Invocation :=
  ⟨"lambda", lambdaModuleArgs a⟩

/-- The parameters of `DynamoDBTable.__call__`
(src/ftl_aws_tools/tools/database/dynamodb_table.py), with the Python
defaults. -/
structure DynamoDBArgs where
  name : String
  state : String := "present"
  billing_mode : String := "PAY_PER_REQUEST"
  hash_key_name : Option String := none
  hash_key_type : String := "S"
  range_key_name : Option String := none
  range_key_type : String := "S"
  read_capacity : Option Int := none
  write_capacity : Option Int := none
  global_secondary_indexes : Option (List Value) := none
  local_secondary_indexes : Option (List Value) := none
  stream_specification : Option (List (String × Value)) := none
  point_in_time_recovery : Bool := true
  tags : Option (List (String × Value)) := none
  wait : Bool := true
  wait_timeout : Int := 600
  region : Option String := none
  kwargs : ArgMap := []

/-- The `attributes` list built by `DynamoDBTable.__call__`: starts empty, an
entry is appended for the hash key when `hash_key_name` is truthy and for the
range key when `range_key_name` is truthy. -/
def dynamoAttributes (a : DynamoDBArgs) : List Value :=
  let attributes : List Value := []
  let attributes :=
    if strT a.hash_key_name then
      attributes ++ [Value.dict [("AttributeName", .str (a.hash_key_name.getD "")),
        ("AttributeType", .str a.hash_key_type)]]
    else attributes
  let attributes :=
    if strT a.range_key_name then
      attributes ++ [Value.dict [("AttributeName", .str (a.range_key_name.getD "")),
        ("AttributeType", .str a.range_key_type)]]
    else attributes
  attributes

/-- The `key_schema` list built by `DynamoDBTable.__call__`: an entry tagged
`HASH` when `hash_key_name` is truthy, then one tagged `RANGE` when
`range_key_name` is truthy. -/
def dynamoKeySchema (a : DynamoDBArgs) : List Value :=
  let key_schema : List Value := []
  let key_schema :=
    if strT a.hash_key_name then
      key_schema ++ [Value.dict [("AttributeName", .str (a.hash_key_name.getD "")),
        ("KeyType", .str "HASH")]]
    else key_schema
  let key_schema :=
    if strT a.range_key_name then
      key_schema ++ [Value.dict [("AttributeName", .str (a.range_key_name.getD "")),
        ("KeyType", .str "RANGE")]]
    else key_schema
  key_schema

/-- The `module_args` dict built by `DynamoDBTable.__call__` before
`module_args.update(kwargs)`: initial dict literal, the composite
`attributes` / `key_schema` lists (included only when nonempty), the
capacity fields guarded by `billing_mode == "PROVISIONED"`, then the guarded
optional fields.  `if point_in_time_recovery is not None:` compares a
parameter annotated `bool`, so that flag is always included. -/
def dynamodbNamedArgs (a : DynamoDBArgs) : ArgMap :=
  let m : ArgMap :=
    setArg (setArg (setArg (setArg (setArg [] "name" (.str a.name))
      "state" (.str a.state)) "billing_mode" (.str a.billing_mode))
      "wait" (.bool a.wait)) "wait_timeout" (.int a.wait_timeout)
  let m :=
    if !(dynamoAttributes a).isEmpty then
      setArg m "attributes" (.list (dynamoAttributes a))
    else m
  let m :=
    if !(dynamoKeySchema a).isEmpty then
      setArg m "key_schema" (.list (dynamoKeySchema a))
    else m
  let m :=
    if a.billing_mode = "PROVISIONED" then
      addInt (addInt m "read_capacity" a.read_capacity) "write_capacity" a.write_capacity
    else m
  let m := addList m "global_indexes" a.global_secondary_indexes
  let m := addList m "local_indexes" a.local_secondary_indexes
  let m := addDict m "stream_specification" a.stream_specification
  let m := setArg m "point_in_time_recovery" (.bool a.point_in_time_recovery)
  let m := addDict m "tags" a.tags
  let m := addStr m "region" a.region
  m

/-- The full `module_args` of `DynamoDBTable.__call__`. -/
def dynamodbModuleArgs (a : DynamoDBArgs) : ArgMap :=
  updateArgs (dynamodbNamedArgs a) a.kwargs

/-- The parameters of `ACMCertificate.__call__`
(src/ftl_aws_tools/tools/security/acm_certificate.py), with the Python
defaults. -/
structure ACMArgs where
  name_tag : Option String := none
  domain_name : Option String := none
  certificate_arn : Option String := none
  state : String := "present"
  certificate : Option String := none
  private_key : Option String := none
  certificate_chain : Option String := none
  tags : Option (List (String × Value)) := none
  purge_tags : Bool := true
  region : Option String := none
  kwargs : ArgMap := []

/-- The `module_args` dict built by `ACMCertificate.__call__` before
`module_args.update(kwargs)`: each identification and content field is
included by an independent `if x:` guard. -/
def acmNamedArgs (a : ACMArgs) : ArgMap :=
  let m : ArgMap :=
    setArg (setArg [] "state" (.str a.state)) "purge_tags" (.bool a.purge_tags)
  let m := addStr m "name_tag" a.name_tag
  let m := addStr m "domain_name" a.domain_name
  let m := addStr m "certificate_arn" a.certificate_arn
  let m := addStr m "certificate" a.certificate
  let m := addStr m "private_key" a.private_key
  let m := addStr m "certificate_chain" a.certificate_chain
  let m := addDict m "tags" a.tags
  let m := addStr m "region" a.region
  m

/-- The full `module_args` of `ACMCertificate.__call__`. -/
def acmModuleArgs (a : ACMArgs) : ArgMap :=
  updateArgs (acmNamedArgs a) a.kwargs

/-- The parameters of `VPCSubnet.__call__`
(src/ftl_aws_tools/tools/networking/ec2_vpc_subnet.py), with the Python
defaults.  `az` is documented in the source as an alias for
`availability_zone`. -/
structure SubnetArgs where
  vpc_id : String
  cidr : String
  state : String := "present"
  availability_zone : Option String := none
  az : Option String := none
  map_public : Bool := false
  assign_instances_ipv6 : Bool := false
  ipv6_cidr : Option String := none
  outpost_arn : Option String := none
  tags : Option (List (String × Value)) := none
  purge_tags : Bool := true
  wait : Bool := true
  wait_timeout : Int := 300
  region : Option String := none
  kwargs : ArgMap := []

/-- The `module_args` dict built by `VPCSubnet.__call__` before
`module_args.update(kwargs)`: initial dict literal, then
`az_value = az or availability_zone` stored under the single key `"az"`
when truthy, then the guarded optional fields. -/
def subnetNamedArgs (a : SubnetArgs) : ArgMap :=
  let m : ArgMap :=
    setArg (setArg (setArg (setArg (setArg (setArg (setArg (setArg []
      "vpc_id" (.str a.vpc_id)) "cidr" (.str a.cidr)) "state" (.str a.state))
      "map_public" (.bool a.map_public))
      "assign_instances_ipv6" (.bool a.assign_instances_ipv6))
      "purge_tags" (.bool a.purge_tags)) "wait" (.bool a.wait))
      "wait_timeout" (.int a.wait_timeout)
  let az_value := pyOrStr a.az a.availability_zone
  let m := addStr m "az" az_value
  let m := addStr m "ipv6_cidr" a.ipv6_cidr
  let m := addStr m "outpost_arn" a.outpost_arn
  let m := addDict m "tags" a.tags
  let m := addStr m "region" a.region
  m

/-- The full `module_args` of `VPCSubnet.__call__`. -/
def subnetModuleArgs (a : SubnetArgs) : ArgMap :=
  updateArgs (subnetNamedArgs a) a.kwargs

/-- The parameters of `S3Bucket.__call__`
(src/ftl_aws_tools/tools/storage/s3_bucket.py), with the Python defaults.
`versioning` is `Optional[bool]` (`None` = no change). -/
structure S3Args where
  name : String
  state : String := "present"
  policy : Option (List (String × Value)) := none
  requester_pays : Bool := false
  tags : Option (List (String × Value)) := none
  purge_tags : Bool := true
  versioning : Option Bool := none
  encryption : Option String := none
  encryption_key_id : Option String := none
  bucket_key_enabled : Bool := false
  public_access_block : Option (List (String × Value)) := none
  delete_public_access_block : Bool := false
  object_lock_enabled : Bool := false
  acl : Option String := none
  validate_bucket_name : Bool := true
  dualstack : Bool := false
  accelerate : Bool := false
  region : Option String := none
  kwargs : ArgMap := []

/-- The `module_args` dict built by `S3Bucket.__call__` before
`module_args.update(kwargs)`: initial dict literal (note `accelerate` is
stored under the key `"accelerate_enabled"`), then the guarded optional
fields; `versioning` is guarded by `is not None`, so an explicit `False` is
kept. -/
def s3NamedArgs (a : S3Args) : ArgMap :=
  let m : ArgMap :=
    setArg (setArg (setArg (setArg (setArg (setArg (setArg (setArg (setArg
      (setArg [] "name" (.str a.name)) "state" (.str a.state))
      "requester_pays" (.bool a.requester_pays))
      "purge_tags" (.bool a.purge_tags))
      "bucket_key_enabled" (.bool a.bucket_key_enabled))
      "delete_public_access_block" (.bool a.delete_public_access_block))
      "object_lock_enabled" (.bool a.object_lock_enabled))
      "validate_bucket_name" (.bool a.validate_bucket_name))
      "dualstack" (.bool a.dualstack))
      "accelerate_enabled" (.bool a.accelerate)
  let m := addDict m "policy" a.policy
  let m := addDict m "tags" a.tags
  let m := addBoolNotNone m "versioning" a.versioning
  let m := addStr m "encryption" a.encryption
  let m := addStr m "encryption_key_id" a.encryption_key_id
  let m := addDict m "public_access" a.public_access_block
  let m := addStr m "acl" a.acl
  let m := addStr m "region" a.region
  m

/-- The full `module_args` of `S3Bucket.__call__`. -/
def s3ModuleArgs (a : S3Args) : ArgMap :=
  updateArgs (s3NamedArgs a) a.kwargs

/-- Concrete call of the Lambda normalizer with all three of `zip_file`,
`s3_bucket`, `s3_key` supplied. -/
def lambdaZipAndS3 : LambdaArgs :=
  { name := "f"
    zip_file := some "a.zip"
    s3_bucket := some "b"
    s3_key := some "k" }

/-- Concrete call of the Lambda normalizer with `package_type="Image"` and
`runtime`/`handler` supplied. -/
def lambdaImageRuntime : LambdaArgs :=
  { name := "f"
    package_type := "Image"
    runtime := some "python3.9"
    handler := some "index.handler"
    image_uri := some "123.dkr.ecr.us-east-1.amazonaws.com/f:latest" }

/-- Concrete call of the Lambda normalizer with none of the mutually
exclusive code sources supplied. -/
def lambdaNoSource : LambdaArgs := { name := "f" }

/-- Concrete call of the ACM certificate normalizer supplying both content
sources: a raw certificate body and a reference certificate ARN. -/
def acmBoth : ACMArgs :=
  { certificate := some "CERTBODY"
    certificate_arn := some "arn:aws:acm:us-east-1:123456789012:certificate/abc" }

/-- Concrete call of the VPC subnet normalizer supplying both the short
alias `az` and the long-form `availability_zone`. -/
def subnetBothAZ : SubnetArgs :=
  { vpc_id := "v"
    cidr := "c"
    az := some "us-east-1a"
    availability_zone := some "us-east-1b" }

/-- Concrete call of the DynamoDB normalizer with a tags mapping supplied. -/
def dynamoTagged : DynamoDBArgs :=
  { name := "t", tags := some [("env", Value.str "prod")] }

/-- Concrete call of the DynamoDB normalizer with on-demand billing and a
supplied read capacity. -/
def dynamoOnDemand : DynamoDBArgs :=
  { name := "t", billing_mode := "PAY_PER_REQUEST", read_capacity := some 5 }

/-- Concrete call of the DynamoDB normalizer with only a hash key. -/
def dynamoHashOnly : DynamoDBArgs := { name := "t", hash_key_name := some "id" }

/-- Concrete S3 call with explicit `versioning=False`. -/
def s3VersioningFalse : S3Args := { name := "b", versioning := some false }

/-- Concrete Lambda call with explicit `reserved_concurrency=0`. -/
def lambdaZeroConcurrency : LambdaArgs :=
  { name := "f", reserved_concurrency := some 0 }

/-- Concrete Lambda call with an unrecognized overflow key and an overflow
key colliding with the rule-derived `state` field. -/
def lambdaWithOverflow : LambdaArgs :=
  { name := "x"
    kwargs := [("extra_field", Value.str "y"), ("state", Value.str "absent")] }

theorem lookup_setArg (m : ArgMap) (k k' : String) (v : Value) :
    lookupArg (setArg m k v) k' = if k' = k then some v else lookupArg m k' := by
  induction m with
  | nil =>
    by_cases h : k' = k
    · simp [setArg, lookupArg, h]
    · simp [setArg, lookupArg, h, Ne.symm h]
  | cons p rest ih =>
    by_cases hpk : p.1 = k
    · by_cases h : k' = k
      · simp [setArg, lookupArg, hpk, h]
      · have hp : ¬ p.1 = k' := by rw [hpk]; exact Ne.symm h
        simp [setArg, lookupArg, hpk, h, hp, Ne.symm h]
    · by_cases hp : p.1 = k'
      · have h : ¬ k' = k := fun hh => hpk (hp.trans hh)
        simp [setArg, lookupArg, hpk, hp, h]
      · simp [setArg, lookupArg, hpk, hp, ih]

theorem lookup_setIf (c : Bool) (m : ArgMap) (k k' : String) (v : Value) :
    lookupArg (setIf c m k v) k' =
      if c ∧ k' = k then some v else lookupArg m k' := by
  by_cases hc : c = true
  · by_cases h : k' = k <;> simp [setIf, hc, h, lookup_setArg]
  · simp at hc
    simp [setIf, hc]

theorem lookup_addStr (m : ArgMap) (k k' : String) (x : Option String) :
    lookupArg (addStr m k x) k' =
      if strT x ∧ k' = k then some (.str (x.getD "")) else lookupArg m k' := by
  simp [addStr, lookup_setIf]

theorem lookup_addInt (m : ArgMap) (k k' : String) (x : Option Int) :
    lookupArg (addInt m k x) k' =
      if intT x ∧ k' = k then some (.int (x.getD 0)) else lookupArg m k' := by
  simp [addInt, lookup_setIf]

theorem lookup_addDict (m : ArgMap) (k k' : String) (x : Option (List (String × Value))) :
    lookupArg (addDict m k x) k' =
      if dictT x ∧ k' = k then some (.dict (x.getD [])) else lookupArg m k' := by
  simp [addDict, lookup_setIf]

theorem lookup_addList (m : ArgMap) (k k' : String) (x : Option (List Value)) :
    lookupArg (addList m k x) k' =
      if listT x ∧ k' = k then some (.list (x.getD [])) else lookupArg m k' := by
  simp [addList, lookup_setIf]

theorem lookup_addIntNotNone (m : ArgMap) (k k' : String) (x : Option Int) :
    lookupArg (addIntNotNone m k x) k' =
      if x.isSome ∧ k' = k then some (.int (x.getD 0)) else lookupArg m k' := by
  simp [addIntNotNone, lookup_setIf]

theorem lookup_addBoolNotNone (m : ArgMap) (k k' : String) (x : Option Bool) :
    lookupArg (addBoolNotNone m k x) k' =
      if x.isSome ∧ k' = k then some (.bool (x.getD false)) else lookupArg m k' := by
  simp [addBoolNotNone, lookup_setIf]

theorem lookup_ite (c : Prop) [Decidable c] (m₁ m₂ : ArgMap) (k : String) :
    lookupArg (if c then m₁ else m₂) k =
      if c then lookupArg m₁ k else lookupArg m₂ k :=
  apply_ite (fun m => lookupArg m k) c m₁ m₂

theorem lookup_updateArgs_not_key (m kw : ArgMap) (k : String)
    (h : k ∉ kw.map Prod.fst) :
    lookupArg (updateArgs m kw) k = lookupArg m k := by
  induction kw generalizing m with
  | nil => rfl
  | cons p rest ih =>
    simp only [List.map_cons, List.mem_cons, not_or] at h
    have hstep : updateArgs m (p :: rest) = updateArgs (setArg m p.1 p.2) rest := rfl
    rw [hstep, ih _ h.2, lookup_setArg, if_neg h.1]

theorem lookup_updateArgs_avoid (m kw : ArgMap) (ks : List String) (k : String)
    (h : kwAvoids kw ks) (hk : k ∈ ks) :
    lookupArg (updateArgs m kw) k = lookupArg m k := by
  apply lookup_updateArgs_not_key
  intro hmem
  rcases List.mem_map.mp hmem with ⟨p, hp, hpk⟩
  exact h p hp (hpk ▸ hk)

theorem lookup_updateArgs_mem (m kw : ArgMap) (k : String) (v : Value)
    (hnd : (kw.map Prod.fst).Nodup) (hmem : (k, v) ∈ kw) :
    lookupArg (updateArgs m kw) k = some v := by
  induction kw generalizing m with
  | nil => cases hmem
  | cons p rest ih =>
    simp only [List.map_cons, List.nodup_cons] at hnd
    have hstep : updateArgs m (p :: rest) = updateArgs (setArg m p.1 p.2) rest := rfl
    rcases List.mem_cons.mp hmem with hhead | htail
    · subst hhead
      rw [hstep, lookup_updateArgs_not_key _ _ _ hnd.1, lookup_setArg, if_pos rfl]
    · exact hstep ▸ ih (setArg m p.1 p.2) hnd.2 htail

/-- C1: For every call to the Lambda function normalizer (whose overflow
kwargs do not themselves bind code-source keys), the code-source
alternatives are resolved in the fixed priority order zip path, then
S3-bucket+S3-key pair, then image URI: the first alternative with all its
required sub-fields supplied (truthy) has its fields copied into the
canonical map and every other alternative's fields are omitted even if
partially supplied. -/
theorem lambda_code_source_priority (a : LambdaArgs)
    (hkw : kwAvoids a.kwargs
      ["zip_file", "s3_bucket", "s3_key", "s3_object_version", "image_uri"]) :
    (strT a.zip_file = true →
      lookupArg (lambdaModuleArgs a) "zip_file" = some (.str (a.zip_file.getD "")) ∧
      lookupArg (lambdaModuleArgs a) "s3_bucket" = none ∧
      lookupArg (lambdaModuleArgs a) "s3_key" = none ∧
      lookupArg (lambdaModuleArgs a) "s3_object_version" = none ∧
      lookupArg (lambdaModuleArgs a) "image_uri" = none) ∧
    (strT a.zip_file = false → strT a.s3_bucket = true → strT a.s3_key = true →
      lookupArg (lambdaModuleArgs a) "zip_file" = none ∧
      lookupArg (lambdaModuleArgs a) "s3_bucket" = some (.str (a.s3_bucket.getD "")) ∧
      lookupArg (lambdaModuleArgs a) "s3_key" = some (.str (a.s3_key.getD "")) ∧
      lookupArg (lambdaModuleArgs a) "s3_object_version" =
        (if strT a.s3_object_version then some (.str (a.s3_object_version.getD ""))
         else none) ∧
      lookupArg (lambdaModuleArgs a) "image_uri" = none) ∧
    (strT a.zip_file = false → (strT a.s3_bucket && strT a.s3_key) = false →
      strT a.image_uri = true →
      lookupArg (lambdaModuleArgs a) "zip_file" = none ∧
      lookupArg (lambdaModuleArgs a) "s3_bucket" = none ∧
      lookupArg (lambdaModuleArgs a) "s3_key" = none ∧
      lookupArg (lambdaModuleArgs a) "s3_object_version" = none ∧
      lookupArg (lambdaModuleArgs a) "image_uri" =
        some (.str (a.image_uri.getD ""))) := by
  have hv : ∀ k, k ∈ (["zip_file", "s3_bucket", "s3_key", "s3_object_version",
      "image_uri"] : List String) →
      lookupArg (lambdaModuleArgs a) k = lookupArg (lambdaNamedArgs a) k :=
    fun k hk => lookup_updateArgs_avoid _ _ _ _ hkw hk
  refine ⟨fun hz => ?_, fun hz hb hk => ?_, fun hz hbk hi => ?_⟩
  · refine ⟨?_, ?_, ?_, ?_, ?_⟩ <;>
    · rw [hv _ (by simp)]
      simp [lambdaNamedArgs, lookup_ite, lookup_addStr, lookup_addInt,
        lookup_addDict, lookup_addList, lookup_addIntNotNone, lookup_setArg,
        lookup_setIf, lookupArg, hz]
  · refine ⟨?_, ?_, ?_, ?_, ?_⟩ <;>
    · rw [hv _ (by simp)]
      simp [lambdaNamedArgs, lookup_ite, lookup_addStr, lookup_addInt,
        lookup_addDict, lookup_addList, lookup_addIntNotNone, lookup_setArg,
        lookup_setIf, lookupArg, hz, hb, hk]
  · refine ⟨?_, ?_, ?_, ?_, ?_⟩ <;>
    · rw [hv _ (by simp)]
      simp [lambdaNamedArgs, lookup_ite, lookup_addStr, lookup_addInt,
        lookup_addDict, lookup_addList, lookup_addIntNotNone, lookup_setArg,
        lookup_setIf, lookupArg, hz, hbk, hi]

/-- C1 witness: with `zip_file`, `s3_bucket` and `s3_key` all supplied, the
canonical map contains `zip_file` and contains neither `s3_bucket` nor
`s3_key`. -/
theorem lambda_code_source_priority_witness :
    lookupArg (lambdaModuleArgs lambdaZipAndS3) "zip_file" = some (.str "a.zip") ∧
    lookupArg (lambdaModuleArgs lambdaZipAndS3) "s3_bucket" = none ∧
    lookupArg (lambdaModuleArgs lambdaZipAndS3) "s3_key" = none := by
  have h := (lambda_code_source_priority lambdaZipAndS3
    (by simp [kwAvoids, lambdaZipAndS3])).1 (by rfl)
  exact ⟨h.1, h.2.1, h.2.2.1⟩

/-- C10: For every call to the Lambda function normalizer (whose overflow
kwargs do not bind these keys), the `package_type` discriminator is always
included, and `runtime` and `handler` appear in the canonical map only when
`package_type` equals `"Zip"`: under any other value, supplied runtime and
handler values are silently omitted. -/
theorem lambda_runtime_handler_only_zip (a : LambdaArgs)
    (hkw : kwAvoids a.kwargs ["package_type", "runtime", "handler"]) :
    lookupArg (lambdaModuleArgs a) "package_type" = some (.str a.package_type) ∧
    lookupArg (lambdaModuleArgs a) "runtime" =
      (if a.package_type = "Zip" ∧ strT a.runtime then
        some (.str (a.runtime.getD "")) else none) ∧
    lookupArg (lambdaModuleArgs a) "handler" =
      (if a.package_type = "Zip" ∧ strT a.handler then
        some (.str (a.handler.getD "")) else none) := by
  have hv : ∀ k, k ∈ (["package_type", "runtime", "handler"] : List String) →
      lookupArg (lambdaModuleArgs a) k = lookupArg (lambdaNamedArgs a) k :=
    fun k hk => lookup_updateArgs_avoid _ _ _ _ hkw hk
  refine ⟨?_, ?_, ?_⟩ <;>
  · rw [hv _ (by simp)]
    by_cases hp : a.package_type = "Zip" <;>
      simp [lambdaNamedArgs, lookup_ite, lookup_addStr, lookup_addInt,
        lookup_addDict, lookup_addList, lookup_addIntNotNone, lookup_setArg,
        lookup_setIf, lookupArg, hp]

/-- C10 witness: with `package_type="Image"`, supplied `runtime` and
`handler` are omitted while `package_type` itself is included. -/
theorem lambda_runtime_handler_only_zip_witness :
    lookupArg (lambdaModuleArgs lambdaImageRuntime) "package_type" = some (.str "Image") ∧
    lookupArg (lambdaModuleArgs lambdaImageRuntime) "runtime" = none ∧
    lookupArg (lambdaModuleArgs lambdaImageRuntime) "handler" = none := by
  have h := lambda_runtime_handler_only_zip lambdaImageRuntime
    (by simp [kwAvoids, lambdaImageRuntime])
  exact ⟨h.1, h.2.1.trans (if_neg (by simp [lambdaImageRuntime])),
    h.2.2.trans (if_neg (by simp [lambdaImageRuntime]))⟩

/-- C3 counterexample: calling the Lambda normalizer with no code source at
all raises nothing — the Module Runner is still invoked (`run_module` with
module `"lambda"`), on a canonical map that simply lacks every code-source
field; no validation failure exists in the normalizer. -/
theorem lambda_no_source_counterexample :
    (lambdaCall lambdaNoSource).module = "lambda" ∧
    lookupArg (lambdaCall lambdaNoSource).module_args "name" = some (.str "f") ∧
    lookupArg (lambdaCall lambdaNoSource).module_args "zip_file" = none ∧
    lookupArg (lambdaCall lambdaNoSource).module_args "s3_bucket" = none ∧
    lookupArg (lambdaCall lambdaNoSource).module_args "s3_key" = none ∧
    lookupArg (lambdaCall lambdaNoSource).module_args "image_uri" = none :=
  ⟨rfl, rfl, rfl, rfl, rfl, rfl⟩

/-- C3 amended: if a caller supplies none of the mutually exclusive code
sources, the Lambda normalizer raises no validation failure: normalization
always completes, the canonical map simply omits every code-source field,
and the Module Runner (`run_module`) is invoked with it as usual. -/
theorem lambda_no_source_no_validation (a : LambdaArgs)
    (hkw : kwAvoids a.kwargs
      ["zip_file", "s3_bucket", "s3_key", "s3_object_version", "image_uri"])
    (hz : strT a.zip_file = false)
    (hbk : (strT a.s3_bucket && strT a.s3_key) = false)
    (hi : strT a.image_uri = false) :
    (lambdaCall a).module = "lambda" ∧
    (lambdaCall a).module_args = lambdaModuleArgs a ∧
    lookupArg (lambdaModuleArgs a) "zip_file" = none ∧
    lookupArg (lambdaModuleArgs a) "s3_bucket" = none ∧
    lookupArg (lambdaModuleArgs a) "s3_key" = none ∧
    lookupArg (lambdaModuleArgs a) "s3_object_version" = none ∧
    lookupArg (lambdaModuleArgs a) "image_uri" = none := by
  have hv : ∀ k, k ∈ (["zip_file", "s3_bucket", "s3_key", "s3_object_version",
      "image_uri"] : List String) →
      lookupArg (lambdaModuleArgs a) k = lookupArg (lambdaNamedArgs a) k :=
    fun k hk => lookup_updateArgs_avoid _ _ _ _ hkw hk
  refine ⟨rfl, rfl, ?_, ?_, ?_, ?_, ?_⟩ <;>
  · rw [hv _ (by simp)]
    simp [lambdaNamedArgs, lookup_ite, lookup_addStr, lookup_addInt,
      lookup_addDict, lookup_addList, lookup_addIntNotNone, lookup_setArg,
      lookup_setIf, lookupArg, hz, hbk, hi]

/-- C3 witness for the amended claim, at the concrete no-source call. -/
theorem lambda_no_source_no_validation_witness :
    (lambdaCall lambdaNoSource).module = "lambda" ∧
    lookupArg (lambdaModuleArgs lambdaNoSource) "zip_file" = none ∧
    lookupArg (lambdaModuleArgs lambdaNoSource) "image_uri" = none := by
  have h := lambda_no_source_no_validation lambdaNoSource
    (by simp [kwAvoids, lambdaNoSource]) rfl rfl rfl
  exact ⟨h.1, h.2.2.1, h.2.2.2.2.2.2⟩

/-- C2 counterexample: when both a certificate body and a certificate ARN
are supplied, the ACM normalizer's canonical map contains both — no
mutual-exclusivity resolution happens. -/
theorem acm_both_content_sources_counterexample :
    lookupArg (acmModuleArgs acmBoth) "certificate" = some (.str "CERTBODY") ∧
    lookupArg (acmModuleArgs acmBoth) "certificate_arn" =
      some (.str "arn:aws:acm:us-east-1:123456789012:certificate/abc") :=
  ⟨rfl, rfl⟩

/-- C2 amended: the ACM certificate normalizer handles the two content
sources independently by omit-if-absent: `certificate` and
`certificate_arn` are each included exactly when supplied (truthy), so a
call supplying both yields a canonical map containing both. -/
theorem acm_content_fields_independent (a : ACMArgs)
    (hkw : kwAvoids a.kwargs ["certificate", "certificate_arn"]) :
    lookupArg (acmModuleArgs a) "certificate" =
      (if strT a.certificate then some (.str (a.certificate.getD "")) else none) ∧
    lookupArg (acmModuleArgs a) "certificate_arn" =
      (if strT a.certificate_arn then some (.str (a.certificate_arn.getD ""))
       else none) := by
  have hv : ∀ k, k ∈ (["certificate", "certificate_arn"] : List String) →
      lookupArg (acmModuleArgs a) k = lookupArg (acmNamedArgs a) k :=
    fun k hk => lookup_updateArgs_avoid _ _ _ _ hkw hk
  refine ⟨?_, ?_⟩ <;>
  · rw [hv _ (by simp)]
    by_cases hc : strT a.certificate <;> by_cases hn : strT a.certificate_arn <;>
      simp [acmNamedArgs, lookup_addStr, lookup_addDict, lookup_setArg,
        lookupArg, hc, hn]

/-- C2 witness for the amended claim, at the both-sources call. -/
theorem acm_content_fields_independent_witness :
    lookupArg (acmModuleArgs acmBoth) "certificate" = some (.str "CERTBODY") ∧
    lookupArg (acmModuleArgs acmBoth) "certificate_arn" =
      some (.str "arn:aws:acm:us-east-1:123456789012:certificate/abc") := by
  have h := acm_content_fields_independent acmBoth (by simp [kwAvoids, acmBoth])
  exact ⟨h.1.trans (if_pos rfl), h.2.trans (if_pos rfl)⟩

/-- C7: when both the short alias `az` and the long-form `availability_zone`
are supplied to the VPC subnet normalizer, the short alias takes precedence:
the canonical map holds a single availability-zone field under the canonical
name `az`, equal to the `az` argument, and never contains the unused name
`availability_zone`. -/
theorem subnet_az_alias_precedence (a : SubnetArgs)
    (hkw : kwAvoids a.kwargs ["az", "availability_zone"])
    (haz : strT a.az = true) (_havz : strT a.availability_zone = true) :
    lookupArg (subnetModuleArgs a) "az" = some (.str (a.az.getD "")) ∧
    lookupArg (subnetModuleArgs a) "availability_zone" = none := by
  have hv : ∀ k, k ∈ (["az", "availability_zone"] : List String) →
      lookupArg (subnetModuleArgs a) k = lookupArg (subnetNamedArgs a) k :=
    fun k hk => lookup_updateArgs_avoid _ _ _ _ hkw hk
  refine ⟨?_, ?_⟩ <;>
  · rw [hv _ (by simp)]
    simp [subnetNamedArgs, pyOrStr, lookup_addStr, lookup_addDict,
      lookup_setArg, lookup_setIf, lookup_ite, lookupArg, haz]

/-- C7 witness: `az="us-east-1a"`, `availability_zone="us-east-1b"` → the
canonical `az` field equals `"us-east-1a"` and no `availability_zone` key
exists. -/
theorem subnet_az_alias_precedence_witness :
    lookupArg (subnetModuleArgs subnetBothAZ) "az" = some (.str "us-east-1a") ∧
    lookupArg (subnetModuleArgs subnetBothAZ) "availability_zone" = none := by
  have h := subnet_az_alias_precedence subnetBothAZ
    (by simp [kwAvoids, subnetBothAZ]) rfl rfl
  exact ⟨h.1, h.2⟩

/-- C4 counterexample: the DynamoDB table normalizer accepts a tags mapping
(included here), yet its canonical map contains no purge-tags flag — the
tool has no `purge_tags` parameter at all. -/
theorem dynamodb_no_purge_tags_counterexample :
    lookupArg (dynamodbModuleArgs dynamoTagged) "tags" =
      some (.dict [("env", Value.str "prod")]) ∧
    lookupArg (dynamodbModuleArgs dynamoTagged) "purge_tags" = none :=
  ⟨rfl, rfl⟩

/-- C4 amended: for every resource-kind normalizer that accepts both a tags
mapping and a purge-tags parameter (here Lambda, ACM certificate, VPC
subnet, S3 bucket), the canonical map always contains the purge-tags flag
(default true) regardless of whether tags were supplied; the DynamoDB table
normalizer accepts tags but has no purge-tags parameter, and its canonical
map never contains the flag. -/
theorem purge_tags_flag_inclusion (la : LambdaArgs) (aa : ACMArgs)
    (sa : SubnetArgs) (s3a : S3Args) (da : DynamoDBArgs)
    (h1 : kwAvoids la.kwargs ["purge_tags"])
    (h2 : kwAvoids aa.kwargs ["purge_tags"])
    (h3 : kwAvoids sa.kwargs ["purge_tags"])
    (h4 : kwAvoids s3a.kwargs ["purge_tags"])
    (h5 : kwAvoids da.kwargs ["purge_tags"]) :
    lookupArg (lambdaModuleArgs la) "purge_tags" = some (.bool la.purge_tags) ∧
    lookupArg (acmModuleArgs aa) "purge_tags" = some (.bool aa.purge_tags) ∧
    lookupArg (subnetModuleArgs sa) "purge_tags" = some (.bool sa.purge_tags) ∧
    lookupArg (s3ModuleArgs s3a) "purge_tags" = some (.bool s3a.purge_tags) ∧
    lookupArg (dynamodbModuleArgs da) "purge_tags" = none := by
  refine ⟨?_, ?_, ?_, ?_, ?_⟩
  · rw [lambdaModuleArgs, lookup_updateArgs_avoid _ _ _ _ h1 (by simp)]
    simp [lambdaNamedArgs, lookup_ite, lookup_addStr, lookup_addInt,
      lookup_addDict, lookup_addList, lookup_addIntNotNone, lookup_setArg,
      lookup_setIf, lookupArg]
  · rw [acmModuleArgs, lookup_updateArgs_avoid _ _ _ _ h2 (by simp)]
    simp [acmNamedArgs, lookup_addStr, lookup_addDict, lookup_setArg, lookupArg]
  · rw [subnetModuleArgs, lookup_updateArgs_avoid _ _ _ _ h3 (by simp)]
    simp [subnetNamedArgs, pyOrStr, lookup_addStr, lookup_addDict,
      lookup_setArg, lookup_setIf, lookup_ite, lookupArg]
  · rw [s3ModuleArgs, lookup_updateArgs_avoid _ _ _ _ h4 (by simp)]
    simp [s3NamedArgs, lookup_addStr, lookup_addDict, lookup_addBoolNotNone,
      lookup_setArg, lookupArg]
  · rw [dynamodbModuleArgs, lookup_updateArgs_avoid _ _ _ _ h5 (by simp)]
    simp [dynamodbNamedArgs, lookup_ite, lookup_addStr, lookup_addInt,
      lookup_addDict, lookup_addList, lookup_setArg, lookup_setIf, lookupArg]

/-- C4 witness for the amended claim: concrete calls (none supplying
`tags` except DynamoDB, none overriding `purge_tags`). -/
theorem purge_tags_flag_inclusion_witness :
    lookupArg (lambdaModuleArgs { name := "f" }) "purge_tags" = some (.bool true) ∧
    lookupArg (acmModuleArgs {}) "purge_tags" = some (.bool true) ∧
    lookupArg (subnetModuleArgs { vpc_id := "v", cidr := "c" }) "purge_tags" =
      some (.bool true) ∧
    lookupArg (s3ModuleArgs { name := "b" }) "purge_tags" = some (.bool true) ∧
    lookupArg (dynamodbModuleArgs dynamoTagged) "purge_tags" = none := by
  have h := purge_tags_flag_inclusion { name := "f" } {}
    { vpc_id := "v", cidr := "c" } { name := "b" } dynamoTagged
    (by simp [kwAvoids]) (by simp [kwAvoids]) (by simp [kwAvoids])
    (by simp [kwAvoids]) (by simp [kwAvoids, dynamoTagged])
  exact h

/-- C5: for every call to the DynamoDB table normalizer (whose overflow
kwargs do not bind these keys), the billing-mode discriminator is always
included, and `read_capacity` / `write_capacity` are included exactly when
their value is supplied (truthy) and `billing_mode` equals
`"PROVISIONED"` — so in particular they are omitted under
`"PAY_PER_REQUEST"`. -/
theorem dynamodb_capacity_conditional (a : DynamoDBArgs)
    (hkw : kwAvoids a.kwargs ["billing_mode", "read_capacity", "write_capacity"]) :
    lookupArg (dynamodbModuleArgs a) "billing_mode" = some (.str a.billing_mode) ∧
    lookupArg (dynamodbModuleArgs a) "read_capacity" =
      (if a.billing_mode = "PROVISIONED" ∧ intT a.read_capacity then
        some (.int (a.read_capacity.getD 0)) else none) ∧
    lookupArg (dynamodbModuleArgs a) "write_capacity" =
      (if a.billing_mode = "PROVISIONED" ∧ intT a.write_capacity then
        some (.int (a.write_capacity.getD 0)) else none) := by
  have hv : ∀ k, k ∈ (["billing_mode", "read_capacity", "write_capacity"] :
      List String) →
      lookupArg (dynamodbModuleArgs a) k = lookupArg (dynamodbNamedArgs a) k :=
    fun k hk => lookup_updateArgs_avoid _ _ _ _ hkw hk
  refine ⟨?_, ?_, ?_⟩ <;>
  · rw [hv _ (by simp)]
    by_cases hp : a.billing_mode = "PROVISIONED" <;>
      simp [dynamodbNamedArgs, lookup_ite, lookup_addStr, lookup_addInt,
        lookup_addDict, lookup_addList, lookup_setArg, lookup_setIf,
        lookupArg, hp]

/-- C5 witness: `billing_mode="PAY_PER_REQUEST"` with `read_capacity=5`
yields a map whose billing mode is present and which has no `read_capacity`
key. -/
theorem dynamodb_capacity_conditional_witness :
    lookupArg (dynamodbModuleArgs dynamoOnDemand) "billing_mode" =
      some (.str "PAY_PER_REQUEST") ∧
    lookupArg (dynamodbModuleArgs dynamoOnDemand) "read_capacity" = none := by
  have h := dynamodb_capacity_conditional dynamoOnDemand
    (by simp [kwAvoids, dynamoOnDemand])
  exact ⟨h.1, h.2.1.trans (if_neg (by simp [dynamoOnDemand]))⟩

/-- C6: for every call to the DynamoDB table normalizer (whose overflow
kwargs do not bind these keys), an entry is appended to both the
attribute-definition list and the key-schema list for the hash key exactly
when `hash_key_name` is supplied (tagged `HASH`) and for the range key
exactly when `range_key_name` is supplied (tagged `RANGE`); if neither name
is supplied, neither list appears in the canonical map at all. -/
theorem dynamodb_key_schema_composite (a : DynamoDBArgs)
    (hkw : kwAvoids a.kwargs ["attributes", "key_schema"]) :
    dynamoAttributes a =
      (if strT a.hash_key_name then
        [Value.dict [("AttributeName", .str (a.hash_key_name.getD "")),
          ("AttributeType", .str a.hash_key_type)]] else []) ++
      (if strT a.range_key_name then
        [Value.dict [("AttributeName", .str (a.range_key_name.getD "")),
          ("AttributeType", .str a.range_key_type)]] else []) ∧
    dynamoKeySchema a =
      (if strT a.hash_key_name then
        [Value.dict [("AttributeName", .str (a.hash_key_name.getD "")),
          ("KeyType", .str "HASH")]] else []) ++
      (if strT a.range_key_name then
        [Value.dict [("AttributeName", .str (a.range_key_name.getD "")),
          ("KeyType", .str "RANGE")]] else []) ∧
    lookupArg (dynamodbModuleArgs a) "attributes" =
      (if strT a.hash_key_name || strT a.range_key_name then
        some (.list (dynamoAttributes a)) else none) ∧
    lookupArg (dynamodbModuleArgs a) "key_schema" =
      (if strT a.hash_key_name || strT a.range_key_name then
        some (.list (dynamoKeySchema a)) else none) := by
  have hv : ∀ k, k ∈ (["attributes", "key_schema"] : List String) →
      lookupArg (dynamodbModuleArgs a) k = lookupArg (dynamodbNamedArgs a) k :=
    fun k hk => lookup_updateArgs_avoid _ _ _ _ hkw hk
  by_cases hh : strT a.hash_key_name <;> by_cases hr : strT a.range_key_name <;>
  · refine ⟨by simp [dynamoAttributes, hh, hr],
      by simp [dynamoKeySchema, hh, hr], ?_, ?_⟩ <;>
    · rw [hv _ (by simp)]
      simp [dynamodbNamedArgs, dynamoAttributes, dynamoKeySchema, lookup_ite,
        lookup_addStr, lookup_addInt, lookup_addDict, lookup_addList,
        lookup_setArg, lookup_setIf, lookupArg, hh, hr]

/-- C6 witness: with only a hash key supplied, both composite lists have
length 1 and are tagged `HASH`. -/
theorem dynamodb_key_schema_composite_witness :
    lookupArg (dynamodbModuleArgs dynamoHashOnly) "attributes" =
      some (.list [Value.dict [("AttributeName", .str "id"),
        ("AttributeType", .str "S")]]) ∧
    lookupArg (dynamodbModuleArgs dynamoHashOnly) "key_schema" =
      some (.list [Value.dict [("AttributeName", .str "id"),
        ("KeyType", .str "HASH")]]) := by
  have h := dynamodb_key_schema_composite dynamoHashOnly
    (by simp [kwAvoids, dynamoHashOnly])
  exact ⟨h.2.2.1.trans (by rfl), h.2.2.2.trans (by rfl)⟩

/-- C8: explicit falsy values of nullable fields are preserved, not
omitted: S3 `versioning` is included with its explicit boolean whenever it
is not `None` (and omitted exactly when `None`), and Lambda
`reserved_concurrency` is included whenever it is not `None`, including the
explicit value `0`. -/
theorem explicit_falsy_values_preserved (sa : S3Args) (la : LambdaArgs)
    (h1 : kwAvoids sa.kwargs ["versioning"])
    (h2 : kwAvoids la.kwargs ["reserved_concurrency"]) :
    (∀ b : Bool, sa.versioning = some b →
      lookupArg (s3ModuleArgs sa) "versioning" = some (.bool b)) ∧
    (sa.versioning = none → lookupArg (s3ModuleArgs sa) "versioning" = none) ∧
    (∀ n : Int, la.reserved_concurrency = some n →
      lookupArg (lambdaModuleArgs la) "reserved_concurrency" = some (.int n)) := by
  refine ⟨fun b hb => ?_, fun hb => ?_, fun n hn => ?_⟩
  · rw [s3ModuleArgs, lookup_updateArgs_avoid _ _ _ _ h1 (by simp)]
    simp [s3NamedArgs, lookup_addStr, lookup_addDict, lookup_addBoolNotNone,
      lookup_setArg, lookupArg, hb]
  · rw [s3ModuleArgs, lookup_updateArgs_avoid _ _ _ _ h1 (by simp)]
    simp [s3NamedArgs, lookup_addStr, lookup_addDict, lookup_addBoolNotNone,
      lookup_setArg, lookupArg, hb]
  · rw [lambdaModuleArgs, lookup_updateArgs_avoid _ _ _ _ h2 (by simp)]
    simp [lambdaNamedArgs, lookup_ite, lookup_addStr, lookup_addInt,
      lookup_addDict, lookup_addList, lookup_addIntNotNone, lookup_setArg,
      lookup_setIf, lookupArg, hn]

/-- C8 witness: `versioning=False` is kept as `False` and
`reserved_concurrency=0` is kept as `0`. -/
theorem explicit_falsy_values_preserved_witness :
    lookupArg (s3ModuleArgs s3VersioningFalse) "versioning" =
      some (.bool false) ∧
    lookupArg (lambdaModuleArgs lambdaZeroConcurrency) "reserved_concurrency" =
      some (.int 0) := by
  have h := explicit_falsy_values_preserved s3VersioningFalse
    lambdaZeroConcurrency (by simp [kwAvoids, s3VersioningFalse])
    (by simp [kwAvoids, lambdaZeroConcurrency])
  exact ⟨h.1 false rfl, h.2.2 0 rfl⟩

/-- C9: every overflow kwarg is merged into the canonical map verbatim after
all named-field rules, last-write-wins: for any key bound in the (unique-key)
kwargs dict of a Lambda or VPC subnet call, the final canonical map holds
exactly the supplied value — whether the key is unrecognized or collides
with a rule-derived key. -/
theorem overflow_kwargs_last_write_wins (la : LambdaArgs) (sa : SubnetArgs)
    (k : String) (v : Value)
    (hnd : (la.kwargs.map Prod.fst).Nodup)
    (hnd2 : (sa.kwargs.map Prod.fst).Nodup) :
    ((k, v) ∈ la.kwargs → lookupArg (lambdaModuleArgs la) k = some v) ∧
    ((k, v) ∈ sa.kwargs → lookupArg (subnetModuleArgs sa) k = some v) :=
  ⟨fun hm => lookup_updateArgs_mem _ _ _ _ hnd hm,
   fun hm => lookup_updateArgs_mem _ _ _ _ hnd2 hm⟩

/-- C9 witness: the unrecognized `extra_field` appears verbatim and the
colliding `state` kwarg replaces the rule-derived `"present"`. -/
theorem overflow_kwargs_last_write_wins_witness :
    lookupArg (lambdaModuleArgs lambdaWithOverflow) "extra_field" =
      some (.str "y") ∧
    lookupArg (lambdaModuleArgs lambdaWithOverflow) "state" =
      some (.str "absent") :=
  ⟨(overflow_kwargs_last_write_wins lambdaWithOverflow
      { vpc_id := "v", cidr := "c" } "extra_field" (.str "y")
      (by simp [lambdaWithOverflow]) (by simp)).1
      (by simp [lambdaWithOverflow]),
   (overflow_kwargs_last_write_wins lambdaWithOverflow
      { vpc_id := "v", cidr := "c" } "state" (.str "absent")
      (by simp [lambdaWithOverflow]) (by simp)).1
      (by simp [lambdaWithOverflow])⟩

end FtlAwsTools
